import Mathlib

/-!
Verification of the wedding_planner venue-orchestration engine.

Shallow embedding of the core of the `wedding_planner` tool: the manifest
data model (`SeatingPlan`, `Dependency`, `WeddingInvite`, `InitBuild`), the
architecture-aware build-artifact installer, the compose-command assembler,
and the dependency/venue lifecycle operations.

External collaborators (the file-handle trait, the command runner, the
filesystem and the YAML loader) are modelled as explicit parameters: a
`FileHandle` is a pair of result functions, the set of existing paths is a
`String → Bool` predicate, and manifest loading is a `String → Option
WeddingInvite` map (`none` models a load error).  Every embedded operation
returns, besides its Rust result, the list of collaborator calls it
performed, so that frame properties ("performs no copy") are expressible.

Rust control flow that can panic (`unwrap`, `panic!`) is embedded with a
dedicated `Outcome` constructor, kept distinct from the recoverable
`Result::Err` case.
-/

namespace WeddingPlanner

/-- Result of an embedded Rust computation: `ok` embeds `Ok`, `err` embeds
a recoverable `Err`, and `panicked` embeds a Rust panic (from `unwrap` or
an explicit `panic!`). -/
inductive Outcome (α : Type) where
  | ok (a : α)
  | err (e : String)
  | panicked (msg : String)
  deriving Repr, DecidableEq

/-- A call performed on the file-handle collaborator
(`CoreFileHandle::copy`, `::remove`, `::create_directory_if_not_exists`,
the last one embedded at its `fs::create_dir_all` call site). -/
inductive FsEvent where
  | copy (src dst : String)
  | remove (path : String)
  | createDirAll (path : String)
  deriving Repr, DecidableEq

/-- The file-handle collaborator (`CoreFileHandle`): the results its
`copy` and `remove` methods would return for given paths. -/
structure FileHandle where
  copyRes : String → String → Except String Nat
  removeRes : String → Except String Unit

/-- Embeds `Path::new(a).join(b)` rendered with `to_string_lossy`:
`PathBuf::push` inserts a separator only when one is needed. -/
def pathJoin (a b : String) : String :=
  if a = "" then b
  else if a.data.getLast? = some '/' then a ++ b
  else a ++ "/" ++ b

/-- `InitBuild` from `src/wedding_invite.rs`; the `HashMap<String, String>`
of build files is embedded as an association list queried with
`List.lookup`. -/
structure InitBuild where
  build_files : List (String × String)
  build_root : String
  build_lock : Option Bool
  deriving Repr, DecidableEq

/-- `WeddingInvite` from `src/wedding_invite.rs`. -/
structure WeddingInvite where
  build_files : Option (List (String × String))
  build_root : String
  init_build : Option InitBuild
  runner_files : List String
  remote_runner_files : Option (List String)
  build_lock : Option Bool
  deriving Repr, DecidableEq

/-- `Dependency` from `src/dependency.rs`. -/
structure Dependency where
  name : String
  url : String
  branch : String
  deriving Repr, DecidableEq

/-- `SeatingPlan` from `src/seating_plan.rs`. -/
structure SeatingPlan where
  attendees : List Dependency
  venue : String
  deriving Repr, DecidableEq

/-- `Runner` from `src/runner.rs`. -/
structure Runner where
  seating_plan : SeatingPlan
  deriving Repr, DecidableEq

/-- Maps an `io::Result` coming back from the file-handle collaborator
into an `Outcome` (no panic is possible on this path). -/
def exceptToOutcome {α : Type} : Except String α → Outcome α
  | .ok a => .ok a
  | .error e => .err e

/-- `WeddingInvite::prepare_build_file`.  The resolved host architecture
(`CpuType::get().to_string()`) is the `arch` parameter.  Returns the Rust
result together with the file-handle calls performed.  The `unwrap` on a
missing `build_files` map embeds as a panic. -/
def WeddingInvite.prepare_build_file (self : WeddingInvite) (arch : String)
    (venue_path name : String) (handle : FileHandle) :
    Outcome Nat × List FsEvent :=
  if self.build_lock = some true then (.ok 0, [])
  else
    let invite_path := pathJoin venue_path name
    match self.build_files with
    | none => (.panicked "called Option::unwrap on a None value", [])
    | some files_map =>
      match files_map.lookup arch with
      | none => (.err ("No build file for CPU type: " ++ arch), [])
      | some build_file_path =>
        let build_path := pathJoin invite_path build_file_path
        let build_root_path :=
          pathJoin (pathJoin invite_path self.build_root) "Dockerfile"
        (exceptToOutcome (handle.copyRes build_path build_root_path),
         [.copy build_path build_root_path])

/-- `WeddingInvite::delete_build_file`. -/
def WeddingInvite.delete_build_file (self : WeddingInvite)
    (venue_path name : String) (handle : FileHandle) :
    Outcome Unit × List FsEvent :=
  if self.build_lock = some true then (.ok (), [])
  else
    let invite_path := pathJoin venue_path name
    let build_root_path :=
      pathJoin (pathJoin invite_path self.build_root) "Dockerfile"
    (exceptToOutcome (handle.removeRes build_root_path),
     [.remove build_root_path])

/-- `WeddingInvite::prepare_init_build_file`.  Notably, the missing-
architecture case is a literal `panic!` in the source, not an `Err`. -/
def WeddingInvite.prepare_init_build_file (self : WeddingInvite) (arch : String)
    (venue_path name : String) (handle : FileHandle) :
    Outcome Nat × List FsEvent :=
  match self.init_build with
  | none => (.ok 0, [])
  | some ib =>
    if ib.build_lock = some true then (.ok 0, [])
    else
      let invite_path := pathJoin venue_path name
      match ib.build_files.lookup arch with
      | none => (.panicked ("No build file for CPU type: " ++ arch), [])
      | some build_file_path =>
        let build_path := pathJoin invite_path build_file_path
        let build_root_path :=
          pathJoin (pathJoin invite_path ib.build_root) "Dockerfile"
        (exceptToOutcome (handle.copyRes build_path build_root_path),
         [.copy build_path build_root_path])

/-- `WeddingInvite::delete_init_build_file`. -/
def WeddingInvite.delete_init_build_file (self : WeddingInvite)
    (venue_path name : String) (handle : FileHandle) :
    Outcome Unit × List FsEvent :=
  match self.init_build with
  | none => (.ok (), [])
  | some ib =>
    if ib.build_lock = some true then (.ok (), [])
    else
      let invite_path := pathJoin venue_path name
      let build_root_path :=
        pathJoin (pathJoin invite_path ib.build_root) "Dockerfile"
      (exceptToOutcome (handle.removeRes build_root_path),
       [.remove build_root_path])

/-- `WeddingInvite::get_docker_compose_files`: the loop
`files_string.push_str(&format!("-f {}/{} ", invite_path, file))` over
`runner_files`. -/
def WeddingInvite.get_docker_compose_files (self : WeddingInvite)
    (venue_path name : String) : String :=
  let invite_path := pathJoin venue_path name
  self.runner_files.foldl
    (fun files_string file =>
       files_string ++ ("-f " ++ invite_path ++ "/" ++ file ++ " ")) ""

/-- `WeddingInvite::get_remote_compose_files`: same loop over
`remote_runner_files`, whose `unwrap` panics when the field is absent. -/
def WeddingInvite.get_remote_compose_files (self : WeddingInvite)
    (venue_path name : String) : Outcome String :=
  match self.remote_runner_files with
  | none => .panicked "called Option::unwrap on a None value"
  | some files =>
    let invite_path := pathJoin venue_path name
    .ok (files.foldl
      (fun files_string file =>
         files_string ++ ("-f " ++ invite_path ++ "/" ++ file ++ " ")) "")

/-- The loop body of `Runner::get_compose_file_command`: one attendee's
contribution to the accumulated command string.  `invites` models
`Dependency::get_wedding_invite` (a fresh manifest load; `none` models a
load error, on which the source calls `unwrap` and panics).  A panic from
an earlier attendee propagates. -/
def composeStep (venue : String) (invites : String → Option WeddingInvite)
    (remote : Bool) (acc : Outcome String) (dependency : Dependency) :
    Outcome String :=
  match acc with
  | .ok command_string =>
    match invites dependency.name with
    | none => .panicked "called Result::unwrap on an Err value"
    | some wedding_invite =>
      match (if remote then
               wedding_invite.get_remote_compose_files venue dependency.name
             else
               .ok (wedding_invite.get_docker_compose_files venue dependency.name)) with
      | .ok files => .ok (command_string ++ files)
      | .err e => .err e
      | .panicked m => .panicked m
  | e => e

/-- `Runner::get_compose_file_command`: starts from `"docker-compose "`
and folds every attendee's compose-file flags onto it in manifest order. -/
def Runner.get_compose_file_command (self : Runner)
    (invites : String → Option WeddingInvite) (remote : Bool) :
    Outcome String :=
  self.seating_plan.attendees.foldl
    (composeStep self.seating_plan.venue invites remote)
    (.ok "docker-compose ")

/-- `Dependency::clone_github_repo`: skip when `venue/name` already exists
(`s` is the set of existing paths), else run
`cd <venue_path> && git clone <url>` through the command-runner
collaborator, whose result is `run_res`.  Returns the Rust result and the
list of commands handed to the runner. -/
def Dependency.clone_github_repo (self : Dependency) (venue_path : String)
    (s : String → Bool) (run_res : Except String Unit) :
    Outcome Unit × List String :=
  let repo_path := pathJoin venue_path self.name
  if s repo_path then (.ok (), [])
  else
    let clone_cmd := "cd " ++ venue_path ++ " && git clone " ++ self.url
    match run_res with
    | .ok _ => (.ok (), [clone_cmd])
    | .error e => (.err e, [clone_cmd])

/-- Models the external git collaborator's effect on the filesystem: a
`git clone` that ran and succeeded materializes the directory
`venue/name`; a skipped or failed clone leaves the path set unchanged. -/
def Dependency.clone_post_state (self : Dependency) (venue_path : String)
    (s : String → Bool) (run_res : Except String Unit) : String → Bool :=
  let repo_path := pathJoin venue_path self.name
  if s repo_path then s
  else
    match run_res with
    | .ok _ => fun p => if p = repo_path then true else s p
    | .error _ => s

/-- `FileHandle::create_directory_if_not_exists` from
`src/file_handler.rs`: if `fs::metadata(path)` succeeds, do nothing; else
call `fs::create_dir_all(path)` (result `create_res`) and propagate its
error with `?`. -/
def create_directory_if_not_exists (metadata_ok : Bool) (path : String)
    (create_res : Except String Unit) : Outcome Unit × List FsEvent :=
  if metadata_ok then (.ok (), [])
  else
    match create_res with
    | .ok _ => (.ok (), [.createDirAll path])
    | .error e => (.err e, [.createDirAll path])

/-- `SeatingPlan::create_venue`: delegates to the file-handle
collaborator on the venue path.  `metadata_ok` models which paths
`fs::metadata` succeeds on, `create_res` the outcome
`fs::create_dir_all` would produce per path. -/
def SeatingPlan.create_venue (self : SeatingPlan)
    (metadata_ok : String → Bool) (create_res : String → Except String Unit) :
    Outcome Unit × List FsEvent :=
  create_directory_if_not_exists (metadata_ok self.venue) self.venue
    (create_res self.venue)

/-- One step of `Runner::install_dependencies`, as an observable event:
a `remove_dir_all`, a clone or checkout attempt, or an invocation of
`prepare_build_file` / `prepare_init_build_file` on the attendee's
invite. -/
inductive InstallEvent where
  | removeDirAll (path : String)
  | cloneRepo (name : String)
  | checkoutBranch (name : String)
  | prepareBuildFile (name : String)
  | prepareInitBuildFile (name : String)
  deriving Repr, DecidableEq

/-- The collaborators `Runner::install_dependencies` interacts with:
directory existence (`Path::is_dir`), `fs::remove_dir_all`, the clone and
checkout sub-operations (abstracted to their per-dependency results),
manifest loading, the file handle and the resolved host architecture. -/
structure InstallWorld where
  dirExists : String → Bool
  removeDirRes : String → Except String Unit
  cloneRes : String → Except String Unit
  checkoutRes : String → Except String Unit
  invite : String → Option WeddingInvite
  handle : FileHandle
  arch : String

/-- The body of the attendee loop in `Runner::install_dependencies`:
remove a pre-existing `venue/name` directory (the `unwrap` there panics
on failure), clone (on error, `continue`), checkout (on error,
`continue`), load the invite (`unwrap` panics on a load error), then
prepare the build file when `build_files` is present and unlocked — and
note that the `None => continue` arm on `build_files` skips the rest of
the body, init build included.  Returns the events of this attendee and an
optional panic message. -/
def installDep (venue full_venue_path : String) (w : InstallWorld)
    (dependency : Dependency) : List InstallEvent × Option String :=
  let dep_dir := pathJoin venue dependency.name
  let removed : List InstallEvent × Option String :=
    if w.dirExists dep_dir then
      match w.removeDirRes dep_dir with
      | .ok _ => ([.removeDirAll dep_dir], none)
      | .error e => ([.removeDirAll dep_dir],
                     some ("called Result::unwrap on an Err value: " ++ e))
    else ([], none)
  match removed with
  | (evs, some m) => (evs, some m)
  | (evs, none) =>
    let evs := evs ++ [.cloneRepo dependency.name]
    match w.cloneRes dependency.name with
    | .error _ => (evs, none)
    | .ok _ =>
      let evs := evs ++ [.checkoutBranch dependency.name]
      match w.checkoutRes dependency.name with
      | .error _ => (evs, none)
      | .ok _ =>
        match w.invite dependency.name with
        | none => (evs, some "called Result::unwrap on an Err value")
        | some wedding_invite =>
          match wedding_invite.build_files with
          | none => (evs, none)
          | some _ =>
            let locked_build :=
              match wedding_invite.build_lock with
              | some unpacked_result => unpacked_result
              | none => false
            let evs :=
              if locked_build = false then
                evs ++ [.prepareBuildFile dependency.name]
              else evs
            match wedding_invite.init_build with
            | none => (evs, none)
            | some unpacked_init_build =>
              let locked_init :=
                match unpacked_init_build.build_lock with
                | some unpacked_result => unpacked_result
                | none => false
              if locked_init = false then
                match (wedding_invite.prepare_init_build_file w.arch
                        full_venue_path dependency.name w.handle).1 with
                | .panicked m =>
                  (evs ++ [.prepareInitBuildFile dependency.name], some m)
                | _ =>
                  (evs ++ [.prepareInitBuildFile dependency.name], none)
              else (evs, none)

/-- `Runner::install_dependencies`: iterates the attendees in manifest
order, accumulating their events; a panic aborts the whole pass. -/
def Runner.install_dependencies (self : Runner) (cwd : String)
    (w : InstallWorld) : List InstallEvent × Option String :=
  let venue := self.seating_plan.venue
  let full_venue_path := pathJoin cwd venue
  self.seating_plan.attendees.foldl
    (fun acc dependency =>
      match acc with
      | (evs, some m) => (evs, some m)
      | (evs, none) =>
        let r := installDep venue full_venue_path w dependency
        (evs ++ r.1, r.2))
    ([], none)

/-- Concatenation of a list of strings, in order. -/
def strConcat : List String → String
  | [] => ""
  | s :: rest => s ++ strConcat rest

/-- The per-file flag fragment `-f <venue>/<name>/<file> ` appended by the
compose-file loops. -/
def composeFrag (venue_path name file : String) : String :=
  "-f " ++ pathJoin venue_path name ++ "/" ++ file ++ " "

/-! Theorems about the embedded operations. -/

theorem foldl_append_frag {α : Type} (f : α → String) (l : List α) (acc : String) :
    l.foldl (fun s x => s ++ f x) acc = acc ++ strConcat (l.map f) := by
  induction l generalizing acc with
  | nil => simp [strConcat, String.append_empty]
  | cons x xs ih =>
      simp only [List.foldl_cons, List.map_cons, strConcat, ih, String.append_assoc]

theorem get_docker_compose_files_eq (inv : WeddingInvite) (venue_path name : String) :
    inv.get_docker_compose_files venue_path name =
      strConcat (inv.runner_files.map (composeFrag venue_path name)) := by
  have h := foldl_append_frag (composeFrag venue_path name) inv.runner_files ""
  simpa [WeddingInvite.get_docker_compose_files, composeFrag,
    String.empty_append] using h

theorem get_remote_compose_files_eq (inv : WeddingInvite)
    (files : List String) (venue_path name : String)
    (h : inv.remote_runner_files = some files) :
    inv.get_remote_compose_files venue_path name =
      .ok (strConcat (files.map (composeFrag venue_path name))) := by
  have hf := foldl_append_frag (composeFrag venue_path name) files ""
  simp only [WeddingInvite.get_remote_compose_files, h]
  simpa [composeFrag, String.empty_append] using congrArg Outcome.ok hf

theorem compose_foldl_local (venue : String)
    (invites : String → Option WeddingInvite) (invOf : Dependency → WeddingInvite) :
    ∀ (l : List Dependency), (∀ d ∈ l, invites d.name = some (invOf d)) →
      ∀ acc : String,
        l.foldl (composeStep venue invites false) (.ok acc) =
          .ok (acc ++ strConcat (l.map (fun d =>
            (invOf d).get_docker_compose_files venue d.name))) := by
  intro l
  induction l with
  | nil => intro _ acc; simp [strConcat, String.append_empty]
  | cons d ds ih =>
      intro h acc
      have hd : invites d.name = some (invOf d) := h d (List.mem_cons_self _ _)
      have hs : ∀ x ∈ ds, invites x.name = some (invOf x) :=
        fun x hx => h x (List.mem_cons_of_mem _ hx)
      have hstep : composeStep venue invites false (.ok acc) d =
          .ok (acc ++ (invOf d).get_docker_compose_files venue d.name) := by
        simp [composeStep, hd]
      simp only [List.foldl_cons, List.map_cons, strConcat, hstep, ih hs,
        String.append_assoc]

/-- C2: with `build_lock = Some(true)` (whatever `build_files` holds),
`prepare_build_file` returns `Ok(0)`, `delete_build_file` returns
`Ok(())`, and neither performs any call on the file-handle
collaborator. -/
theorem C2_locked_build_noop (inv : WeddingInvite)
    (arch venue_path name : String) (handle : FileHandle)
    (h : inv.build_lock = some true) :
    inv.prepare_build_file arch venue_path name handle = (.ok 0, []) ∧
    inv.delete_build_file venue_path name handle = (.ok (), []) := by
  exact ⟨by simp [WeddingInvite.prepare_build_file, h],
         by simp [WeddingInvite.delete_build_file, h]⟩

theorem C2_locked_build_noop_witness :
    (WeddingInvite.mk none "." none [] none (some true)).prepare_build_file
        "x86_64" "v" "A" (FileHandle.mk (fun _ _ => .ok 1) (fun _ => .ok ()))
      = (.ok 0, []) ∧
    (WeddingInvite.mk none "." none [] none (some true)).delete_build_file
        "v" "A" (FileHandle.mk (fun _ _ => .ok 1) (fun _ => .ok ()))
      = (.ok (), []) :=
  C2_locked_build_noop _ "x86_64" "v" "A" _ rfl

/-- C3: with the lock not `Some(true)`, `build_files` present and holding
the resolved architecture, `prepare_build_file` performs exactly one copy,
from `<venue>/<name>/<build_files[arch]>` to
`<venue>/<name>/<build_root>/Dockerfile`, and returns that copy's
bytes-copied result. -/
theorem C3_prepare_copies_arch_file (inv : WeddingInvite)
    (arch venue_path name : String) (handle : FileHandle)
    (m : List (String × String)) (p : String)
    (h1 : inv.build_lock ≠ some true) (h2 : inv.build_files = some m)
    (h3 : m.lookup arch = some p) :
    inv.prepare_build_file arch venue_path name handle =
      (exceptToOutcome (handle.copyRes (pathJoin (pathJoin venue_path name) p)
          (pathJoin (pathJoin (pathJoin venue_path name) inv.build_root) "Dockerfile")),
       [.copy (pathJoin (pathJoin venue_path name) p)
          (pathJoin (pathJoin (pathJoin venue_path name) inv.build_root) "Dockerfile")]) := by
  simp [WeddingInvite.prepare_build_file, h1, h2, h3]

theorem C3_prepare_copies_arch_file_witness :
    (WeddingInvite.mk (some [("x86_64", "bf")]) "." none [] none none).prepare_build_file
        "x86_64" "v" "A" (FileHandle.mk (fun _ _ => .ok 7) (fun _ => .ok ()))
      = (.ok 7, [.copy "v/A/bf" "v/A/./Dockerfile"]) := by
  have h := C3_prepare_copies_arch_file
    (WeddingInvite.mk (some [("x86_64", "bf")]) "." none [] none none)
    "x86_64" "v" "A" (FileHandle.mk (fun _ _ => .ok 7) (fun _ => .ok ()))
    [("x86_64", "bf")] "bf" (by decide) rfl (by decide)
  exact h.trans (by decide)

/-- C4: with the lock not `Some(true)` and `build_files` present but
missing the resolved architecture, `prepare_build_file` returns the
"no build file for this architecture" error and performs no copy. -/
theorem C4_prepare_missing_arch_errors (inv : WeddingInvite)
    (arch venue_path name : String) (handle : FileHandle)
    (m : List (String × String))
    (h1 : inv.build_lock ≠ some true) (h2 : inv.build_files = some m)
    (h3 : m.lookup arch = none) :
    inv.prepare_build_file arch venue_path name handle =
      (.err ("No build file for CPU type: " ++ arch), []) := by
  simp [WeddingInvite.prepare_build_file, h1, h2, h3]

theorem C4_prepare_missing_arch_errors_witness :
    (WeddingInvite.mk (some [("aarch64", "bf")]) "." none [] none none).prepare_build_file
        "x86_64" "v" "A" (FileHandle.mk (fun _ _ => .ok 7) (fun _ => .ok ()))
      = (.err "No build file for CPU type: x86_64", []) := by
  have h := C4_prepare_missing_arch_errors
    (WeddingInvite.mk (some [("aarch64", "bf")]) "." none [] none none)
    "x86_64" "v" "A" (FileHandle.mk (fun _ _ => .ok 7) (fun _ => .ok ()))
    [("aarch64", "bf")] (by decide) rfl (by decide)
  exact h.trans (by decide)

/-- C10: `build_lock = Some(false)` behaves exactly like
`build_lock = None` in all four installer operations (for the init pair,
the lock inside `init_build`): same result and same file-handle calls. -/
theorem C10_lock_false_equals_lock_none (inv : WeddingInvite) (ib : InitBuild)
    (arch venue_path name : String) (handle : FileHandle) :
    ({ inv with build_lock := some false } : WeddingInvite).prepare_build_file
        arch venue_path name handle =
      ({ inv with build_lock := none } : WeddingInvite).prepare_build_file
        arch venue_path name handle ∧
    ({ inv with build_lock := some false } : WeddingInvite).delete_build_file
        venue_path name handle =
      ({ inv with build_lock := none } : WeddingInvite).delete_build_file
        venue_path name handle ∧
    ({ inv with init_build := some { ib with build_lock := some false } } :
        WeddingInvite).prepare_init_build_file arch venue_path name handle =
      ({ inv with init_build := some { ib with build_lock := none } } :
        WeddingInvite).prepare_init_build_file arch venue_path name handle ∧
    ({ inv with init_build := some { ib with build_lock := some false } } :
        WeddingInvite).delete_init_build_file venue_path name handle =
      ({ inv with init_build := some { ib with build_lock := none } } :
        WeddingInvite).delete_init_build_file venue_path name handle := by
  refine ⟨?_, ?_, ?_, ?_⟩
  · simp [WeddingInvite.prepare_build_file]
  · simp [WeddingInvite.delete_build_file]
  · simp [WeddingInvite.prepare_init_build_file]
  · simp [WeddingInvite.delete_init_build_file]

/-- C1: the local compose assembly is exactly `"docker-compose "` followed
by one `-f <venue>/<name>/<file> ` fragment per runner file of each
attendee, attendees in manifest order and files in list order, with no
other content; and on a two-attendee plan, swapping the attendees swaps
the two fragment blocks. -/
theorem C1_local_compose_assembly (runner : Runner)
    (invites : String → Option WeddingInvite) (invOf : Dependency → WeddingInvite)
    (h : ∀ d ∈ runner.seating_plan.attendees, invites d.name = some (invOf d)) :
    runner.get_compose_file_command invites false =
      .ok ("docker-compose " ++ strConcat (runner.seating_plan.attendees.map (fun d =>
        strConcat ((invOf d).runner_files.map
          (composeFrag runner.seating_plan.venue d.name))))) ∧
    (∀ (a b : Dependency) (venue : String),
      invites a.name = some (invOf a) → invites b.name = some (invOf b) →
      (Runner.mk (SeatingPlan.mk [a, b] venue)).get_compose_file_command invites false =
        .ok ("docker-compose " ++
          (strConcat ((invOf a).runner_files.map (composeFrag venue a.name)) ++
           strConcat ((invOf b).runner_files.map (composeFrag venue b.name)))) ∧
      (Runner.mk (SeatingPlan.mk [b, a] venue)).get_compose_file_command invites false =
        .ok ("docker-compose " ++
          (strConcat ((invOf b).runner_files.map (composeFrag venue b.name)) ++
           strConcat ((invOf a).runner_files.map (composeFrag venue a.name))))) := by
  constructor
  · have key := compose_foldl_local runner.seating_plan.venue invites invOf
      runner.seating_plan.attendees h "docker-compose "
    have hfun : (fun d => (invOf d).get_docker_compose_files runner.seating_plan.venue d.name)
        = (fun d => strConcat ((invOf d).runner_files.map
            (composeFrag runner.seating_plan.venue d.name))) :=
      funext fun d => get_docker_compose_files_eq (invOf d) _ d.name
    unfold Runner.get_compose_file_command
    rw [key, hfun]
  · intro a b venue ha hb
    have hab : ∀ d ∈ [a, b], invites d.name = some (invOf d) := by
      intro d hd
      simp only [List.mem_cons, List.not_mem_nil, or_false] at hd
      rcases hd with rfl | rfl
      · exact ha
      · exact hb
    have hba : ∀ d ∈ [b, a], invites d.name = some (invOf d) := by
      intro d hd
      simp only [List.mem_cons, List.not_mem_nil, or_false] at hd
      rcases hd with rfl | rfl
      · exact hb
      · exact ha
    constructor
    · unfold Runner.get_compose_file_command
      rw [compose_foldl_local venue invites invOf [a, b] hab "docker-compose "]
      simp [strConcat, String.append_empty, get_docker_compose_files_eq]
    · unfold Runner.get_compose_file_command
      rw [compose_foldl_local venue invites invOf [b, a] hba "docker-compose "]
      simp [strConcat, String.append_empty, get_docker_compose_files_eq]

theorem C1_local_compose_assembly_witness :
    (Runner.mk (SeatingPlan.mk
        [Dependency.mk "A" "uA" "m", Dependency.mk "B" "uB" "m"] "v")).get_compose_file_command
      (fun n => if n = "A" then some (WeddingInvite.mk none "." none ["x"] none none)
                else if n = "B" then some (WeddingInvite.mk none "." none ["y"] none none)
                else none) false
      = .ok "docker-compose -f v/A/x -f v/B/y " := by
  have h := (C1_local_compose_assembly
      (Runner.mk (SeatingPlan.mk
        [Dependency.mk "A" "uA" "m", Dependency.mk "B" "uB" "m"] "v"))
      (fun n => if n = "A" then some (WeddingInvite.mk none "." none ["x"] none none)
                else if n = "B" then some (WeddingInvite.mk none "." none ["y"] none none)
                else none)
      (fun d => if d.name = "A" then WeddingInvite.mk none "." none ["x"] none none
                else WeddingInvite.mk none "." none ["y"] none none)
      (by
        intro d hd
        simp only [List.mem_cons, List.not_mem_nil, or_false] at hd
        rcases hd with rfl | rfl <;> decide)).1
  exact h.trans (by decide)

theorem foldl_composeStep_stuck (venue : String)
    (invites : String → Option WeddingInvite) (remote : Bool)
    (acc : Outcome String) (hacc : ∀ s, acc ≠ .ok s) :
    ∀ l : List Dependency, l.foldl (composeStep venue invites remote) acc = acc := by
  intro l
  induction l with
  | nil => rfl
  | cons d ds ih =>
      have hstep : composeStep venue invites remote acc d = acc := by
        cases acc with
        | ok s => exact absurd rfl (hacc s)
        | err e => rfl
        | panicked m => rfl
      rw [List.foldl_cons, hstep, ih]

theorem compose_remote_missing_not_ok (venue : String)
    (invites : String → Option WeddingInvite) (inv : WeddingInvite)
    (hinv : inv.remote_runner_files = none) :
    ∀ (l : List Dependency) (d : Dependency), d ∈ l → invites d.name = some inv →
      ∀ (acc : Outcome String) (s : String),
        l.foldl (composeStep venue invites true) acc ≠ .ok s := by
  intro l
  induction l with
  | nil => intro d hd; cases hd
  | cons x xs ih =>
      intro d hd hload acc s
      rcases List.mem_cons.mp hd with rfl | hmem
      · cases acc with
        | ok a =>
            have hstep : composeStep venue invites true (.ok a) d =
                .panicked "called Option::unwrap on a None value" := by
              simp [composeStep, hload, WeddingInvite.get_remote_compose_files, hinv]
            rw [List.foldl_cons, hstep,
              foldl_composeStep_stuck venue invites true _ (fun t ht => by cases ht) xs]
            exact fun hcontra => Outcome.noConfusion hcontra
        | err e =>
            rw [foldl_composeStep_stuck venue invites true _ (fun t ht => by cases ht)]
            exact fun hcontra => Outcome.noConfusion hcontra
        | panicked m =>
            rw [foldl_composeStep_stuck venue invites true _ (fun t ht => by cases ht)]
            exact fun hcontra => Outcome.noConfusion hcontra
      · rw [List.foldl_cons]
        exact ih d hmem hload _ s

/-- C6: a repository with no `remote_runner_files` makes the remote
assembly fail explicitly — `get_remote_compose_files` panics on the
`unwrap`, never returns a string, and a seating plan containing such an
attendee can never produce an assembled remote command string. -/
theorem C6_remote_missing_fails (inv : WeddingInvite) (venue_path name : String)
    (h : inv.remote_runner_files = none) :
    inv.get_remote_compose_files venue_path name =
      .panicked "called Option::unwrap on a None value" ∧
    (∀ s, inv.get_remote_compose_files venue_path name ≠ .ok s) ∧
    (∀ (runner : Runner) (invites : String → Option WeddingInvite) (d : Dependency),
      d ∈ runner.seating_plan.attendees → invites d.name = some inv →
      ∀ s, runner.get_compose_file_command invites true ≠ .ok s) := by
  refine ⟨?_, ?_, ?_⟩
  · simp [WeddingInvite.get_remote_compose_files, h]
  · intro s; simp [WeddingInvite.get_remote_compose_files, h]
  · intro runner invites d hd hload s
    exact compose_remote_missing_not_ok runner.seating_plan.venue invites inv h
      runner.seating_plan.attendees d hd hload _ s

theorem C6_remote_missing_fails_witness :
    (WeddingInvite.mk none "." none [] none none).get_remote_compose_files "v" "A"
      = .panicked "called Option::unwrap on a None value" ∧
    (Runner.mk (SeatingPlan.mk [Dependency.mk "A" "u" "m"] "v")).get_compose_file_command
      (fun _ => some (WeddingInvite.mk none "." none [] none none)) true
      ≠ .ok "docker-compose " := by
  have h := C6_remote_missing_fails (WeddingInvite.mk none "." none [] none none) "v" "A" rfl
  exact ⟨h.1, h.2.2 (Runner.mk (SeatingPlan.mk [Dependency.mk "A" "u" "m"] "v")) _
    (Dependency.mk "A" "u" "m") (by decide) rfl _⟩

/-- C8: clone is idempotent on materialized state — when `venue/name`
already exists the clone returns success and hands no command to the
runner, and after any successful clone a second clone call is a no-op
success, so the two calls together run the external command at most
once. -/
theorem C8_clone_idempotent (dep : Dependency) (venue_path : String)
    (s : String → Bool) (r1 r2 : Except String Unit) :
    (s (pathJoin venue_path dep.name) = true →
      dep.clone_github_repo venue_path s r1 = (.ok (), []) ∧
      dep.clone_post_state venue_path s r1 = s) ∧
    ((dep.clone_github_repo venue_path s r1).1 = .ok () →
      dep.clone_github_repo venue_path (dep.clone_post_state venue_path s r1) r2
        = (.ok (), []) ∧
      (dep.clone_github_repo venue_path s r1).2.length +
        (dep.clone_github_repo venue_path
          (dep.clone_post_state venue_path s r1) r2).2.length ≤ 1) := by
  constructor
  · intro hexists
    exact ⟨by simp [Dependency.clone_github_repo, hexists],
           by simp [Dependency.clone_post_state, hexists]⟩
  · intro hok
    by_cases hexists : s (pathJoin venue_path dep.name) = true
    · refine ⟨?_, ?_⟩ <;>
        simp [Dependency.clone_github_repo, Dependency.clone_post_state, hexists]
    · cases r1 with
      | ok u =>
          have hpost : dep.clone_post_state venue_path s (.ok u)
                (pathJoin venue_path dep.name) = true := by
            simp [Dependency.clone_post_state, hexists]
          refine ⟨by simp [Dependency.clone_github_repo, hpost], ?_⟩
          simp [Dependency.clone_github_repo, hpost, hexists]
      | error e =>
          exfalso
          simp [Dependency.clone_github_repo, hexists] at hok

theorem C8_clone_idempotent_witness :
    ((Dependency.mk "svc" "u" "m").clone_github_repo "venue"
        (fun p => p = "venue/svc") (.ok ()) = (.ok (), [])) ∧
    ((Dependency.mk "svc" "u" "m").clone_github_repo "venue"
        ((Dependency.mk "svc" "u" "m").clone_post_state "venue"
          (fun _ => false) (.ok ())) (.ok ()) = (.ok (), [])) := by
  have h1 := (C8_clone_idempotent (Dependency.mk "svc" "u" "m") "venue"
    (fun p => p = "venue/svc") (.ok ()) (.ok ())).1 (by decide)
  have h2 := (C8_clone_idempotent (Dependency.mk "svc" "u" "m") "venue"
    (fun _ => false) (.ok ()) (.ok ())).2 (by decide)
  exact ⟨h1.1, h2.1⟩

/-- C9: venue creation is idempotent — an existing venue path yields
success with no filesystem mutation; a missing one yields exactly one
`create_dir_all` call on the venue path, whose error, if any, is
propagated as the result. -/
theorem C9_create_venue_idempotent (plan : SeatingPlan)
    (metadata_ok : String → Bool) (create_res : String → Except String Unit) :
    (metadata_ok plan.venue = true →
      plan.create_venue metadata_ok create_res = (.ok (), [])) ∧
    (metadata_ok plan.venue = false → create_res plan.venue = .ok () →
      plan.create_venue metadata_ok create_res
        = (.ok (), [.createDirAll plan.venue])) ∧
    (∀ e, metadata_ok plan.venue = false → create_res plan.venue = .error e →
      plan.create_venue metadata_ok create_res
        = (.err e, [.createDirAll plan.venue])) := by
  refine ⟨?_, ?_, ?_⟩
  · intro h1
    simp [SeatingPlan.create_venue, create_directory_if_not_exists, h1]
  · intro h1 h2
    simp [SeatingPlan.create_venue, create_directory_if_not_exists, h1, h2]
  · intro e h1 h2
    simp [SeatingPlan.create_venue, create_directory_if_not_exists, h1, h2]

theorem C9_create_venue_idempotent_witness :
    ((SeatingPlan.mk [] "v").create_venue (fun _ => true) (fun _ => .ok ())
      = (.ok (), [])) ∧
    ((SeatingPlan.mk [] "v").create_venue (fun _ => false) (fun _ => .ok ())
      = (.ok (), [.createDirAll "v"])) ∧
    ((SeatingPlan.mk [] "v").create_venue (fun _ => false) (fun _ => .error "denied")
      = (.err "denied", [.createDirAll "v"])) := by
  refine ⟨?_, ?_, ?_⟩
  · exact (C9_create_venue_idempotent (SeatingPlan.mk [] "v")
      (fun _ => true) (fun _ => .ok ())).1 rfl
  · exact (C9_create_venue_idempotent (SeatingPlan.mk [] "v")
      (fun _ => false) (fun _ => .ok ())).2.1 rfl rfl
  · exact (C9_create_venue_idempotent (SeatingPlan.mk [] "v")
      (fun _ => false) (fun _ => .error "denied")).2.2 "denied" rfl rfl

/-- C5 evidence: on a missing architecture key, `prepare_init_build_file`
diverges with a `panic!` where its top-level sibling returns the
recoverable "no build file" error at the very same configuration; the
`init_build`-absent cases are genuine no-op successes with zero
file-handle calls. -/
theorem C5_init_missing_arch_panics :
    (WeddingInvite.mk none "."
        (some (InitBuild.mk [("x86_64", "bf")] "db" none)) [] none
        none).prepare_init_build_file
        "aarch64" "v" "A" (FileHandle.mk (fun _ _ => .ok 0) (fun _ => .ok ()))
      = (.panicked "No build file for CPU type: aarch64", []) ∧
    (WeddingInvite.mk (some [("x86_64", "bf")]) "db" none [] none
        none).prepare_build_file
        "aarch64" "v" "A" (FileHandle.mk (fun _ _ => .ok 0) (fun _ => .ok ()))
      = (.err "No build file for CPU type: aarch64", []) ∧
    (WeddingInvite.mk none "." none [] none none).prepare_init_build_file
        "aarch64" "v" "A" (FileHandle.mk (fun _ _ => .ok 0) (fun _ => .ok ()))
      = (.ok 0, []) ∧
    (WeddingInvite.mk none "." none [] none none).delete_init_build_file
        "v" "A" (FileHandle.mk (fun _ _ => .ok 0) (fun _ => .ok ()))
      = (.ok (), []) := by
  refine ⟨by decide, by decide, by decide, by decide⟩

/-- C7 counterexample: one attendee whose clone and checkout succeed and
whose invite declares an unlocked `init_build` with a matching
architecture — but no top-level `build_files`.  The install pass performs
no init-build preparation at all: the `None => continue` arm on
`build_files` skips the init-build section. -/
theorem C7_counterexample :
    ((Runner.mk (SeatingPlan.mk [Dependency.mk "svc" "u" "main"] "venue")).install_dependencies
        "." (InstallWorld.mk (fun _ => false) (fun _ => .ok ()) (fun _ => .ok ())
          (fun _ => .ok ())
          (fun _ => some (WeddingInvite.mk none "."
            (some (InitBuild.mk [("x86_64", "f")] "db" none)) [] none none))
          (FileHandle.mk (fun _ _ => .ok 0) (fun _ => .ok ())) "x86_64")
      = ([.cloneRepo "svc", .checkoutBranch "svc"], none)) ∧
    InstallEvent.prepareInitBuildFile "svc" ∉
      ((Runner.mk (SeatingPlan.mk [Dependency.mk "svc" "u" "main"] "venue")).install_dependencies
        "." (InstallWorld.mk (fun _ => false) (fun _ => .ok ()) (fun _ => .ok ())
          (fun _ => .ok ())
          (fun _ => some (WeddingInvite.mk none "."
            (some (InitBuild.mk [("x86_64", "f")] "db" none)) [] none none))
          (FileHandle.mk (fun _ _ => .ok 0) (fun _ => .ok ())) "x86_64")).1 := by
  exact ⟨by decide, by decide⟩

/-- C7 (amended): for an attendee whose clone and checkout succeed and
whose invite loads, the init-build artifact is conditionally prepared per
`init_build`'s own lock flag only when the top-level `build_files` is
present; when `build_files` is absent the attendee's remaining
processing — the init build included — is skipped. -/
theorem C7_install_init_gated_on_build_files
    (venue full_venue_path : String) (w : InstallWorld) (d : Dependency)
    (inv : WeddingInvite)
    (hrm : w.dirExists (pathJoin venue d.name) = true →
           w.removeDirRes (pathJoin venue d.name) = .ok ())
    (hc : w.cloneRes d.name = .ok ())
    (hk : w.checkoutRes d.name = .ok ())
    (hi : w.invite d.name = some inv) :
    (∀ bf ib, inv.build_files = some bf → inv.init_build = some ib →
      (InstallEvent.prepareInitBuildFile d.name ∈ (installDep venue full_venue_path w d).1 ↔
        ib.build_lock ≠ some true)) ∧
    (inv.build_files = none →
      InstallEvent.prepareInitBuildFile d.name ∉ (installDep venue full_venue_path w d).1) := by
  constructor
  · intro bf ib hbf hib
    rcases hbl : inv.build_lock with _ | (_ | _) <;>
    rcases hil : ib.build_lock with _ | (_ | _) <;>
    by_cases hd : w.dirExists (pathJoin venue d.name) <;>
    first
      | (have hr := hrm hd
         rcases hout : (inv.prepare_init_build_file w.arch full_venue_path d.name w.handle).1
           with _ | _ | _ <;>
         simp_all [installDep])
      | (rcases hout : (inv.prepare_init_build_file w.arch full_venue_path d.name w.handle).1
           with _ | _ | _ <;>
         simp_all [installDep])
  · intro hbf
    by_cases hd : w.dirExists (pathJoin venue d.name) <;>
    first
      | (have hr := hrm hd
         simp_all [installDep])
      | simp_all [installDep]

theorem C7_install_init_gated_on_build_files_witness :
    InstallEvent.prepareInitBuildFile "svc" ∈
      (installDep "venue" "./venue"
        (InstallWorld.mk (fun _ => false) (fun _ => .ok ()) (fun _ => .ok ())
          (fun _ => .ok ())
          (fun _ => some (WeddingInvite.mk (some [("x86_64", "f")]) "."
            (some (InitBuild.mk [("x86_64", "f")] "db" none)) [] none none))
          (FileHandle.mk (fun _ _ => .ok 0) (fun _ => .ok ())) "x86_64")
        (Dependency.mk "svc" "u" "main")).1 := by
  have h := (C7_install_init_gated_on_build_files "venue" "./venue"
    (InstallWorld.mk (fun _ => false) (fun _ => .ok ()) (fun _ => .ok ())
      (fun _ => .ok ())
      (fun _ => some (WeddingInvite.mk (some [("x86_64", "f")]) "."
        (some (InitBuild.mk [("x86_64", "f")] "db" none)) [] none none))
      (FileHandle.mk (fun _ _ => .ok 0) (fun _ => .ok ())) "x86_64")
    (Dependency.mk "svc" "u" "main")
    (WeddingInvite.mk (some [("x86_64", "f")]) "."
      (some (InitBuild.mk [("x86_64", "f")] "db" none)) [] none none)
    (by intro hcontra; cases hcontra) rfl rfl rfl).1
    [("x86_64", "f")] (InitBuild.mk [("x86_64", "f")] "db" none) rfl rfl
  exact h.mpr (by decide)

end WeddingPlanner
